import Mathlib

/-!
Verification of the session-dialog confirmation protocol: data model,
msgpack/base64 codec, exit-code contract, environment allow-list and the
confirmation state machine, embedded from `src/lib.rs`, `src/ui.rs` and
`src/bin/dialog.rs`.
-/

set_option maxRecDepth 10000

instance {ε α : Type} [DecidableEq ε] [DecidableEq α] : DecidableEq (Except ε α) := fun x y =>
  match x, y with
  | .ok a, .ok b =>
    if h : a = b then isTrue (by rw [h]) else isFalse (fun hh => h (Except.ok.inj hh))
  | .error a, .error b =>
    if h : a = b then isTrue (by rw [h]) else isFalse (fun hh => h (Except.error.inj hh))
  | .ok _, .error _ => isFalse (fun hh => Except.noConfusion hh)
  | .error _, .ok _ => isFalse (fun hh => Except.noConfusion hh)

namespace SessionDialog

/-- Result of showing a confirmation dialog (`DialogResult` in lib.rs). -/
inductive DialogResult where
  | Confirmed
  | Denied
  | Timeout
  | Error
deriving DecidableEq, Repr

/-- Type of confirmation dialog to show (`DialogKind` in lib.rs).
Text fields are Rust `String`s (UTF-8); `process_path` is a `PathBuf`,
serialized by serde as a string. `port` is a `u16`. -/
inductive DialogKind where
  | privilegeEscalation (command : String)
  | networkConnection (process : String) (process_path : String)
      (destination : String) (port : Nat) (protocol : String)
  | generic (title : String) (message : String) (detail : String)
deriving DecidableEq, Repr

/-- Configuration for a dialog (`DialogConfig` in lib.rs):
`timeout_secs : Option<u32>`. -/
structure DialogConfig where
  kind : DialogKind
  timeout_secs : Option Nat
deriving DecidableEq, Repr

/-! ## UTF-8 bytes of a string (used by the msgpack layer and `str::as_bytes`) -/

/-- UTF-8 encoding of one Unicode code point, as byte values. -/
def utf8EncodeCp (n : Nat) : List Nat :=
  if n < 0x80 then [n]
  else if n < 0x800 then [0xc0 + n / 64, 0x80 + n % 64]
  else if n < 0x10000 then [0xe0 + n / 4096, 0x80 + n / 64 % 64, 0x80 + n % 64]
  else [0xf0 + n / 262144, 0x80 + n / 4096 % 64, 0x80 + n / 64 % 64, 0x80 + n % 64]

/-- The UTF-8 bytes of a string (Rust `str::as_bytes` / `String::into_bytes`). -/
def utf8Bytes (s : String) : List Nat :=
  (s.data.map (fun c => utf8EncodeCp c.toNat)).flatten

/-! ## msgpack encoding of `DialogConfig`

Modelled from the spec: `DialogConfig::to_bytes` calls `rmp_serde::to_vec`
(msgpack, an external crate whose code is not under src/). The spec (§4.1)
requires a compact, self-describing tagged binary serialization; rmp_serde's
documented compact mode writes structs as arrays of their fields, enum
variants externally tagged as a single-entry map keyed by the variant name
with the fields as an array, strings with minimal-size str headers, integers
with minimal-size uint headers, and `None` as nil. -/

/-- Minimal msgpack uint encoding of an unsigned integer (< 2^32 here). -/
def msgpackUint (n : Nat) : List Nat :=
  if n < 128 then [n]
  else if n < 256 then [0xcc, n]
  else if n < 65536 then [0xcd, n / 256, n % 256]
  else [0xce, n / 2 ^ 24 % 256, n / 2 ^ 16 % 256, n / 256 % 256, n % 256]

/-- Minimal msgpack str encoding of a string. -/
def msgpackStr (s : String) : List Nat :=
  let b := utf8Bytes s
  let n := b.length
  if n < 32 then (0xa0 + n) :: b
  else if n < 256 then 0xd9 :: n :: b
  else if n < 65536 then 0xda :: (n / 256) :: (n % 256) :: b
  else 0xdb :: (n / 2 ^ 24 % 256) :: (n / 2 ^ 16 % 256) :: (n / 256 % 256) :: (n % 256) :: b

/-- Modelled from the spec: the msgpack encoding of a `DialogKind` value as
rmp_serde writes it — a one-entry map from the variant name to the array of
the variant's fields. -/
def DialogKind.to_bytes : DialogKind → List Nat
  | .privilegeEscalation command =>
      0x81 :: msgpackStr "PrivilegeEscalation" ++ 0x91 :: msgpackStr command
  | .networkConnection process process_path destination port protocol =>
      0x81 :: msgpackStr "NetworkConnection" ++ 0x95 ::
        (msgpackStr process ++ msgpackStr process_path ++ msgpackStr destination ++
         msgpackUint port ++ msgpackStr protocol)
  | .generic title message detail =>
      0x81 :: msgpackStr "Generic" ++ 0x93 ::
        (msgpackStr title ++ msgpackStr message ++ msgpackStr detail)

/-- Modelled from the spec: `DialogConfig::to_bytes` (rmp_serde msgpack) —
the two-field struct is an array `[kind, timeout_secs]`, with `None` as nil. -/
def DialogConfig.to_bytes (c : DialogConfig) : List Nat :=
  0x92 :: c.kind.to_bytes ++
    (match c.timeout_secs with
     | none => [0xc0]
     | some t => msgpackUint t)

/-! ## base64 (lib.rs `Base64Encoder` / `base64_encode` / `base64_decode`) -/

/-- The base64 alphabet of lib.rs (`ALPHABET`), as byte values. -/
def b64Alphabet : List Nat :=
  "ABCDEFGHIJKLMNOPQRSTUVWXYZabcdefghijklmnopqrstuvwxyz0123456789+/".data.map Char.toNat

/-- The `flush_pending` loop of `Base64Encoder`: while at least 6 bits are
pending, emit the top 6 bits. Returns the remaining bit count and the buffer. -/
def b64Flush (pending : Nat) : Nat → List Nat → Nat × List Nat
  | b + 6, buf => b64Flush pending b (buf ++ [b64Alphabet.getD ((pending >>> b) &&& 63) 0])
  | bits, buf => (bits, buf)

/-- Encoder state: the `pending` u32 accumulator, pending bit count, buffer. -/
structure B64State where
  pending : Nat
  bits : Nat
  buf : List Nat

/-- One step of `Base64Encoder::write`: shift in a byte (u32 wrap) and flush. -/
def b64Write (st : B64State) (b : Nat) : B64State :=
  let pending := (st.pending * 256) % 2 ^ 32 + b % 256
  let r := b64Flush pending (st.bits + 8) st.buf
  ⟨pending, r.1, r.2⟩

/-- The `Drop` impl of `Base64Encoder`: emit the final partial sextet and
`(3 - (pending_bits / 8) % 3) % 3` padding characters. -/
def b64Finish (st : B64State) : List Nat :=
  if st.bits > 0 then
    let shift := 6 - st.bits
    let idx := (st.pending <<< shift) &&& 63
    let padding := (3 - (st.bits / 8) % 3) % 3
    st.buf ++ [b64Alphabet.getD idx 0] ++ List.replicate padding 61
  else st.buf

/-- lib.rs `base64_encode`, producing the token's bytes. -/
def base64_encode (data : List Nat) : List Nat :=
  b64Finish (data.foldl b64Write ⟨0, 0, []⟩)

/-- lib.rs `base64_decode::decode_char` (byte values; 61 is the pad byte). -/
def decode_char (c : Nat) : Except String Nat :=
  if 65 ≤ c ∧ c ≤ 90 then .ok (c - 65)
  else if 97 ≤ c ∧ c ≤ 122 then .ok (c - 97 + 26)
  else if 48 ≤ c ∧ c ≤ 57 then .ok (c - 48 + 52)
  else if c = 43 then .ok 62
  else if c = 47 then .ok 63
  else if c = 61 then .ok 0
  else .error "invalid base64 character"

/-- lib.rs `base64_decode`, over the token's bytes, chunked in fours. -/
def base64_decode : List Nat → Except String (List Nat)
  | [] => .ok []
  | a :: b :: c :: d :: rest =>
    match decode_char a with
    | .error e => .error e
    | .ok a' =>
      match decode_char b with
      | .error e => .error e
      | .ok b' =>
        match decode_char c with
        | .error e => .error e
        | .ok c' =>
          match decode_char d with
          | .error e => .error e
          | .ok d' =>
            match base64_decode rest with
            | .error e => .error e
            | .ok tail =>
              .ok ((((a' <<< 2) % 256) ||| (b' >>> 4)) ::
                ((if c ≠ 61 then [((b' <<< 4) % 256) ||| (c' >>> 2)] else []) ++
                 (if d ≠ 61 then [((c' <<< 6) % 256) ||| d'] else []) ++ tail))
  | _ => .error "invalid base64 length"

/-- The transport alphabet of the decoder: A-Z, a-z, 0-9, plus, slash, pad. -/
def isBase64Byte (c : Nat) : Bool :=
  (65 ≤ c && c ≤ 90) || (97 ≤ c && c ≤ 122) || (48 ≤ c && c ≤ 57) ||
    c = 43 || c = 47 || c = 61

/-! ## msgpack decoding of `DialogConfig`

Modelled from the spec: `DialogConfig::from_bytes` calls
`rmp_serde::from_slice` (external crate). It reads a single value in the
layout written by the encoder above and rejects structurally invalid
payloads with an error. -/

/-- Read a msgpack uint (positive fixint, uint8, uint16 or uint32). -/
def readUint : List Nat → Except String (Nat × List Nat)
  | b :: rest =>
    if b < 0x80 then .ok (b, rest)
    else if b = 0xcc then
      match rest with
      | x :: r => .ok (x, r)
      | _ => .error "truncated msgpack uint"
    else if b = 0xcd then
      match rest with
      | x :: y :: r => .ok (x * 256 + y, r)
      | _ => .error "truncated msgpack uint"
    else if b = 0xce then
      match rest with
      | x :: y :: z :: w :: r => .ok (((x * 256 + y) * 256 + z) * 256 + w, r)
      | _ => .error "truncated msgpack uint"
    else .error "invalid msgpack uint"
  | [] => .error "unexpected end of msgpack data"

/-- Decode UTF-8 bytes into code points, rejecting truncated, overlong,
surrogate and out-of-range sequences. -/
def utf8Decode : List Nat → Option (List Nat)
  | [] => some []
  | b :: rest =>
    if b < 0x80 then (utf8Decode rest).map (b :: ·)
    else if 0xc0 ≤ b ∧ b < 0xe0 then
      match rest with
      | c1 :: r =>
        if 0x80 ≤ c1 ∧ c1 < 0xc0 then
          let cp := (b - 0xc0) * 64 + (c1 - 0x80)
          if 0x80 ≤ cp then (utf8Decode r).map (cp :: ·) else none
        else none
      | _ => none
    else if 0xe0 ≤ b ∧ b < 0xf0 then
      match rest with
      | c1 :: c2 :: r =>
        if (0x80 ≤ c1 ∧ c1 < 0xc0) ∧ (0x80 ≤ c2 ∧ c2 < 0xc0) then
          let cp := ((b - 0xe0) * 64 + (c1 - 0x80)) * 64 + (c2 - 0x80)
          if 0x800 ≤ cp ∧ ¬(0xd800 ≤ cp ∧ cp < 0xe000) then
            (utf8Decode r).map (cp :: ·)
          else none
        else none
      | _ => none
    else if 0xf0 ≤ b ∧ b < 0xf8 then
      match rest with
      | c1 :: c2 :: c3 :: r =>
        if (0x80 ≤ c1 ∧ c1 < 0xc0) ∧ (0x80 ≤ c2 ∧ c2 < 0xc0) ∧ (0x80 ≤ c3 ∧ c3 < 0xc0) then
          let cp := (((b - 0xf0) * 64 + (c1 - 0x80)) * 64 + (c2 - 0x80)) * 64 + (c3 - 0x80)
          if 0x10000 ≤ cp ∧ cp < 0x110000 then (utf8Decode r).map (cp :: ·) else none
        else none
      | _ => none
    else none

/-- A string from UTF-8 bytes, or `none` when the bytes are not valid UTF-8. -/
def bytesToStr (bs : List Nat) : Option String :=
  (utf8Decode bs).map (fun cps => String.mk (cps.map Char.ofNat))

/-- Read `n` string bytes and validate them as UTF-8. -/
def readStrBody (n : Nat) (bs : List Nat) : Except String (String × List Nat) :=
  if bs.length < n then .error "truncated msgpack string"
  else
    match bytesToStr (bs.take n) with
    | some s => .ok (s, bs.drop n)
    | none => .error "invalid utf8 in msgpack string"

/-- Read a msgpack str (fixstr, str8, str16 or str32). -/
def readStr : List Nat → Except String (String × List Nat)
  | b :: rest =>
    if 0xa0 ≤ b ∧ b ≤ 0xbf then readStrBody (b - 0xa0) rest
    else if b = 0xd9 then
      match rest with
      | n :: r => readStrBody n r
      | _ => .error "truncated msgpack string"
    else if b = 0xda then
      match rest with
      | x :: y :: r => readStrBody (x * 256 + y) r
      | _ => .error "truncated msgpack string"
    else if b = 0xdb then
      match rest with
      | x :: y :: z :: w :: r => readStrBody (((x * 256 + y) * 256 + z) * 256 + w) r
      | _ => .error "truncated msgpack string"
    else .error "invalid msgpack string"
  | [] => .error "unexpected end of msgpack data"

/-- Expect one exact byte. -/
def readExact (b : Nat) : List Nat → Except String (List Nat)
  | x :: r => if x = b then .ok r else .error "unexpected msgpack byte"
  | [] => .error "unexpected end of msgpack data"

/-- Modelled from the spec: `DialogConfig::from_bytes`
(`rmp_serde::from_slice`, external crate) — reads one `DialogConfig` value
in the layout of `DialogConfig.to_bytes` and rejects structurally invalid
payloads. -/
def DialogConfig.from_bytes (bs : List Nat) : Except String DialogConfig := do
  let r0 ← readExact 0x92 bs
  let r1 ← readExact 0x81 r0
  let (vname, r2) ← readStr r1
  let (kind, r3) ←
    if vname = "PrivilegeEscalation" then do
      let r ← readExact 0x91 r2
      let (command, r) ← readStr r
      pure (DialogKind.privilegeEscalation command, r)
    else if vname = "NetworkConnection" then do
      let r ← readExact 0x95 r2
      let (process, r) ← readStr r
      let (process_path, r) ← readStr r
      let (destination, r) ← readStr r
      let (port, r) ← readUint r
      if 65536 ≤ port then Except.error "port out of range" else do
      let (protocol, r) ← readStr r
      pure (DialogKind.networkConnection process process_path destination port protocol, r)
    else if vname = "Generic" then do
      let r ← readExact 0x93 r2
      let (title, r) ← readStr r
      let (message, r) ← readStr r
      let (detail, r) ← readStr r
      pure (DialogKind.generic title message detail, r)
    else Except.error "unknown DialogKind variant"
  let timeout_secs ←
    match r3 with
    | 0xc0 :: _ => pure (none : Option Nat)
    | r => do
      let (t, _) ← readUint r
      pure (some t)
  pure ⟨kind, timeout_secs⟩

/-! ## The surface binary's config parsing (`src/bin/dialog.rs`) -/

/-- The two failure stages of parsing a `--config` token in dialog.rs: the
base64 transport layer (`failed to decode config`) and the msgpack payload
layer (`failed to parse config`); both exit with code 3 but report distinct
errors. -/
inductive ConfigError where
  | transport (msg : String)
  | payload (msg : String)
deriving DecidableEq, Repr

/-- Parse a `--config` token as dialog.rs does: `base64_decode` on the
token's bytes, then `DialogConfig::from_bytes` on the decoded bytes. -/
def parse_token (s : List Nat) : Except ConfigError DialogConfig :=
  match base64_decode s with
  | .error m => .error (.transport m)
  | .ok bytes =>
    match DialogConfig.from_bytes bytes with
    | .error m => .error (.payload m)
    | .ok c => .ok c

/-- What `main` in dialog.rs does with its argument vector: run the dialog
with a config, or exit with code 3 on a usage / decode / parse error. -/
inductive MainOutcome where
  | runWith (c : DialogConfig)
  | exitDecodeError
  | exitParseError
  | exitMissingArg
  | exitUsage
deriving DecidableEq, Repr

/-- dialog.rs `main`: `args` is the full argument vector including the
program name. Looks for `--config`; otherwise joins the arguments after the
program name with single spaces into a legacy `PrivilegeEscalation` command,
exiting 3 with a usage message when that command is empty. -/
def dialog_main (args : List String) : MainOutcome :=
  match args.findIdx? (fun a => a = "--config") with
  | some pos =>
    match args.get? (pos + 1) with
    | some config_b64 =>
      match base64_decode (utf8Bytes config_b64) with
      | .ok bytes =>
        match DialogConfig.from_bytes bytes with
        | .ok config => .runWith config
        | .error _ => .exitParseError
      | .error _ => .exitDecodeError
    | none => .exitMissingArg
  | none =>
    let command := String.intercalate " " (args.drop 1)
    if command = "" then .exitUsage
    else .runWith ⟨.privilegeEscalation command, none⟩

/-! ## Exit-code protocol (lib.rs `show_dialog` / `show_dialog_inline`) -/

/-- The `match status.code()` arms of `show_dialog` (lib.rs 184-189):
`status.code()` is `None` when the child was terminated by a signal. -/
def interpret_status (c : Option Int) : DialogResult :=
  match c with
  | some code =>
    if code = 0 then .Confirmed
    else if code = 1 then .Denied
    else if code = 2 then .Timeout
    else .Error
  | none => .Error

/-- The full `match result` of `show_dialog` (lib.rs 182-192): a spawn
error (`Err(_)` from `status()`) also maps to `Error`. The `Except` input
is `Ok` with the child's exit code (`None` = killed by a signal) or `Err`
when the process could not be run at all. -/
def show_dialog_result (spawn : Except Unit (Option Int)) : DialogResult :=
  match spawn with
  | .ok c => interpret_status c
  | .error _ => .Error

/-- The `match exit_code` of `show_dialog_inline` (lib.rs 228-233). -/
def show_dialog_inline_result (code : Int) : DialogResult :=
  if code = 0 then .Confirmed
  else if code = 1 then .Denied
  else if code = 2 then .Timeout
  else .Error

/-! ## Spawner environment (lib.rs `show_dialog` / `WAYLAND_ENV_VARS`) -/

/-- lib.rs `WAYLAND_ENV_VARS`. -/
def WAYLAND_ENV_VARS : List String :=
  ["WAYLAND_DISPLAY", "XDG_RUNTIME_DIR", "XDG_SESSION_TYPE", "DBUS_SESSION_BUS_ADDRESS"]

/-- Lookup in an environment map (modelling `HashMap::get`). -/
def lookupEnv (env : List (String × String)) (k : String) : Option String :=
  (env.find? (fun p => p.1 = k)).map (fun p => p.2)

/-- The argument `show_dialog` passes to `Command::envs` (lib.rs 175-179):
the allow-listed keys present in the supplied map, with their values. -/
def spawn_envs_arg (env : List (String × String)) : List (String × String) :=
  WAYLAND_ENV_VARS.filterMap (fun k => (lookupEnv env k).map (fun v => (k, v)))

/-- Modelled from the spec: the child environment `std::process::Command`
builds (external std code). Its documented default inherits the parent
process's environment; `envs` inserts/overrides entries on top of it, and
`show_dialog` never calls `env_clear`. So a child-environment lookup sees
the explicitly passed entry first and otherwise the parent's entry. -/
def child_env_lookup (parentEnv env : List (String × String)) (k : String) : Option String :=
  match lookupEnv (spawn_envs_arg env) k with
  | some v => some v
  | none => lookupEnv parentEnv k

/-! ## Confirmation state machine (src/ui.rs `App::update` and the loop) -/

/-- The keys `App::update` distinguishes. -/
inductive Key where
  | enter
  | escape
  | other
deriving DecidableEq, Repr

/-- The messages `App::update` consumes. A `tick` carries the wall-clock
seconds elapsed since `start_time` when the tick is processed
(`self.start_time.elapsed().as_secs()`); `unLock` is the runtime message a
terminal transition emits, and `otherEvent` stands for every other
subscription event (mouse, key releases, ...), all handled by the final
wildcard arm. -/
inductive Msg where
  | keyPressed (k : Key)
  | tick (elapsed : Nat)
  | unLock
  | otherEvent
deriving DecidableEq, Repr

/-- ui.rs `App::update`: given the configured `timeout_secs` and the current
`EXIT_CODE` value, return the new `EXIT_CODE` value and whether the update
returned `Task::done(Message::UnLock)` (a terminal transition). `EXIT_CODE`
starts at 1 (default: denied, ui.rs 17). -/
def update (timeoutSecs : Option Nat) (code : Int) : Msg → Int × Bool
  | .keyPressed .enter => (0, true)
  | .keyPressed .escape => (1, true)
  | .keyPressed .other => (code, false)
  | .tick elapsed =>
    match timeoutSecs with
    | some t => if t ≤ elapsed then (2, true) else (code, false)
    | none => (code, false)
  | .unLock => (code, false)
  | .otherEvent => (code, false)

/-- The cooperative event loop (spec §5): messages are dispatched one at a
time; once an update requests `UnLock` the surface is torn down and no
further message is dispatched. Returns the final `EXIT_CODE` and whether a
terminal transition occurred. -/
def runLoop (timeoutSecs : Option Nat) (code : Int) : List Msg → Int × Bool
  | [] => (code, false)
  | m :: rest =>
    let r := update timeoutSecs code m
    if r.2 then (r.1, true) else runLoop timeoutSecs r.1 rest

/-- Processing a message list through `App::update` unconditionally (no
teardown): the `EXIT_CODE` value after every message has been processed. -/
def processAll (timeoutSecs : Option Nat) (code : Int) (msgs : List Msg) : Int :=
  msgs.foldl (fun c m => (update timeoutSecs c m).1) code

/-- ui.rs `run`: 3 when the iced runtime returns `Err`, otherwise the final
`EXIT_CODE` after the event loop finishes. -/
def ui_run (timeoutSecs : Option Nat) (msgs : List Msg) (runtimeFailed : Bool) : Int :=
  if runtimeFailed then 3 else (runLoop timeoutSecs 1 msgs).1

/-! ## Helper lemmas -/

/-- An update that does not request unlock leaves `EXIT_CODE` unchanged. -/
theorem update_snd_false (t : Option Nat) (c : Int) (m : Msg)
    (h : (update t c m).2 = false) : (update t c m).1 = c := by
  cases m with
  | keyPressed k => cases k <;> simp [update] at h ⊢
  | tick e =>
    cases t with
    | none => simp [update]
    | some b =>
      by_cases hb : b ≤ e
      · simp [update, hb] at h
      · simp [update, hb]
  | unLock => simp [update]
  | otherEvent => simp [update]

/-- A loop run in which no terminal transition occurred leaves `EXIT_CODE`
at its initial value. -/
theorem runLoop_snd_false (t : Option Nat) (c : Int) (msgs : List Msg)
    (h : (runLoop t c msgs).2 = false) : (runLoop t c msgs).1 = c := by
  induction msgs generalizing c with
  | nil => rfl
  | cons m rest ih =>
    by_cases hu : (update t c m).2
    · simp [runLoop, hu] at h
    · rw [Bool.not_eq_true] at hu
      simp only [runLoop, hu, Bool.false_eq_true, if_false] at h ⊢
      rw [ih _ h, update_snd_false t c m hu]

/-- Bytes the decoder's alphabet rejects make `decode_char` fail. -/
theorem decode_char_err (c : Nat) (h : isBase64Byte c = false) :
    decode_char c = .error "invalid base64 character" := by
  simp only [isBase64Byte, Bool.or_eq_false_iff, Bool.and_eq_false_iff,
    decide_eq_false_iff_not, not_le] at h
  unfold decode_char
  split
  · omega
  split
  · omega
  split
  · omega
  split
  · omega
  split
  · omega
  split
  · omega
  rfl

/-- Bytes the decoder's alphabet accepts make `decode_char` succeed. -/
theorem decode_char_ok (c : Nat) (h : isBase64Byte c = true) :
    ∃ v, decode_char c = .ok v := by
  simp only [isBase64Byte, Bool.or_eq_true, Bool.and_eq_true,
    decide_eq_true_eq] at h
  unfold decode_char
  split
  · exact ⟨_, rfl⟩
  split
  · exact ⟨_, rfl⟩
  split
  · exact ⟨_, rfl⟩
  split
  · exact ⟨_, rfl⟩
  split
  · exact ⟨_, rfl⟩
  split
  · exact ⟨_, rfl⟩
  omega

/-- A token of length ≢ 0 (mod 4) whose bytes are all in the alphabet is
rejected with the length error. -/
theorem base64_decode_len_err : ∀ (s : List Nat), s.length % 4 ≠ 0 →
    (∀ c ∈ s, isBase64Byte c = true) →
    base64_decode s = .error "invalid base64 length"
  | [], h, _ => absurd rfl h
  | [_], _, _ => rfl
  | [_, _], _, _ => rfl
  | [_, _, _], _, _ => rfl
  | a :: b :: c :: d :: rest, h, hv => by
    obtain ⟨va, ha⟩ := decode_char_ok a (hv a (by simp))
    obtain ⟨vb, hb⟩ := decode_char_ok b (hv b (by simp))
    obtain ⟨vc, hc⟩ := decode_char_ok c (hv c (by simp))
    obtain ⟨vd, hd⟩ := decode_char_ok d (hv d (by simp))
    have hlen : rest.length % 4 ≠ 0 := by
      simp only [List.length_cons] at h; omega
    have ih := base64_decode_len_err rest hlen (fun x hx => hv x (by simp [hx]))
    simp [base64_decode, ha, hb, hc, hd, ih]

/-- A token of length ≢ 0 (mod 4) never decodes successfully. -/
theorem base64_decode_len_not_ok : ∀ (s : List Nat), s.length % 4 ≠ 0 →
    ∀ bs, base64_decode s ≠ .ok bs
  | [], h, _ => absurd rfl h
  | [_], _, _ => by simp [base64_decode]
  | [_, _], _, _ => by simp [base64_decode]
  | [_, _, _], _, _ => by simp [base64_decode]
  | a :: b :: c :: d :: rest, h, bs => by
    have hlen : rest.length % 4 ≠ 0 := by
      simp only [List.length_cons] at h; omega
    have ih := base64_decode_len_not_ok rest hlen
    cases ha : decode_char a with
    | error e => simp [base64_decode, ha]
    | ok va =>
      cases hb : decode_char b with
      | error e => simp [base64_decode, ha, hb]
      | ok vb =>
        cases hc : decode_char c with
        | error e => simp [base64_decode, ha, hb, hc]
        | ok vc =>
          cases hd : decode_char d with
          | error e => simp [base64_decode, ha, hb, hc, hd]
          | ok vd =>
            cases hr : base64_decode rest with
            | error e => simp [base64_decode, ha, hb, hc, hd, hr]
            | ok tail => exact absurd hr (ih tail)

/-- A token of length ≡ 0 (mod 4) containing a byte outside the alphabet is
rejected with the character error. -/
theorem base64_decode_char_err : ∀ (s : List Nat), s.length % 4 = 0 →
    ∀ x, x ∈ s → isBase64Byte x = false →
    base64_decode s = .error "invalid base64 character"
  | [], _, x, hx, _ => absurd hx (List.not_mem_nil x)
  | [_], h, _, _, _ => by simp at h
  | [_, _], h, _, _, _ => by simp at h
  | [_, _, _], h, _, _, _ => by simp at h
  | a :: b :: c :: d :: rest, h, x, hx, hbad => by
    have hlen : rest.length % 4 = 0 := by
      simp only [List.length_cons] at h; omega
    by_cases hva : isBase64Byte a
    · obtain ⟨va, ha⟩ := decode_char_ok a hva
      by_cases hvb : isBase64Byte b
      · obtain ⟨vb, hb⟩ := decode_char_ok b hvb
        by_cases hvc : isBase64Byte c
        · obtain ⟨vc, hc⟩ := decode_char_ok c hvc
          by_cases hvd : isBase64Byte d
          · obtain ⟨vd, hd⟩ := decode_char_ok d hvd
            have hxr : x ∈ rest := by
              simp only [List.mem_cons] at hx
              rcases hx with rfl | rfl | rfl | rfl | hxr
              · simp [hbad] at hva
              · simp [hbad] at hvb
              · simp [hbad] at hvc
              · simp [hbad] at hvd
              · exact hxr
            have ih := base64_decode_char_err rest hlen x hxr hbad
            simp [base64_decode, ha, hb, hc, hd, ih]
          · rw [Bool.not_eq_true] at hvd
            simp [base64_decode, ha, hb, hc, decode_char_err d hvd]
        · rw [Bool.not_eq_true] at hvc
          simp [base64_decode, ha, hb, decode_char_err c hvc]
      · rw [Bool.not_eq_true] at hvb
        simp [base64_decode, ha, decode_char_err b hvb]
    · rw [Bool.not_eq_true] at hva
      simp [base64_decode, decode_char_err a hva]

/-! ## Claims -/

/-- C1: the claim `decode(encode(d)) = d` fails on the code. The msgpack
form of `PrivilegeEscalation { command: "" }` with no timeout is 25 bytes
(25 ≡ 1 mod 3); since `Base64Encoder::drop` emits no padding, the token's
length is 34, not a multiple of 4, and `base64_decode` rejects the very
token `base64_encode(d.to_bytes())` produced instead of returning `d`. -/
theorem c1_roundtrip_broken :
    (DialogConfig.to_bytes ⟨.privilegeEscalation "", none⟩).length = 25 ∧
    base64_decode (base64_encode (DialogConfig.to_bytes
      ⟨.privilegeEscalation "", none⟩)) = .error "invalid base64 length" ∧
    base64_decode (base64_encode (DialogConfig.to_bytes
      ⟨.privilegeEscalation "a", none⟩)) = .error "invalid base64 length" := by
  refine ⟨by decide, by decide, by decide⟩

/-- C3: the exit-status mapping is total and exhaustive — 0 ↦ Confirmed,
1 ↦ Denied, 2 ↦ Timeout, every other integer status ↦ Error, abnormal
termination (no exit code) ↦ Error and a spawn failure ↦ Error — and
`show_dialog` and `show_dialog_inline` apply the same mapping to every
integer exit code. -/
theorem c3_exit_code_mapping :
    (∀ code : Int, show_dialog_result (.ok (some code)) = show_dialog_inline_result code) ∧
    show_dialog_inline_result 0 = .Confirmed ∧
    show_dialog_inline_result 1 = .Denied ∧
    show_dialog_inline_result 2 = .Timeout ∧
    (∀ code : Int, code ≠ 0 → code ≠ 1 → code ≠ 2 →
      show_dialog_inline_result code = .Error) ∧
    show_dialog_result (.ok none) = .Error ∧
    (∀ u : Unit, show_dialog_result (.error u) = .Error) := by
  refine ⟨fun _ => rfl, rfl, rfl, rfl, ?_, rfl, fun _ => rfl⟩
  intro code h0 h1 h2
  simp [show_dialog_inline_result, h0, h1, h2]

/-- C3 witness: exit status 5 maps to `Error`. -/
theorem c3_exit_code_mapping_witness : show_dialog_inline_result 5 = .Error :=
  c3_exit_code_mapping.2.2.2.2.1 5 (by decide) (by decide) (by decide)

/-- C4: the claim fails on the code. The `envs` argument is correctly
filtered to the allow-listed keys present in the input map, but
`std::process::Command` inherits the parent's environment by default and
`show_dialog` never calls `env_clear`, so a parent variable (`SECRET`) not
in the allow-list is still present in the child's environment. -/
theorem c4_env_leak :
    spawn_envs_arg [("WAYLAND_DISPLAY", "wayland-1"), ("HOME", "/root")] =
      [("WAYLAND_DISPLAY", "wayland-1")] ∧
    child_env_lookup [("SECRET", "x")]
      [("WAYLAND_DISPLAY", "wayland-1"), ("HOME", "/root")] "WAYLAND_DISPLAY" =
      some "wayland-1" ∧
    child_env_lookup [("SECRET", "x")]
      [("WAYLAND_DISPLAY", "wayland-1"), ("HOME", "/root")] "SECRET" = some "x" ∧
    "SECRET" ∉ WAYLAND_ENV_VARS := by
  refine ⟨by decide, by decide, by decide, by decide⟩

/-- C5: the claim fails on the code. `Base64Encoder::drop` computes its
padding count as `(3 - (pending_bits / 8) % 3) % 3` with `pending_bits`
equal to 2 or 4, so the count is always 0 and no `=` is ever emitted:
one- and two-byte inputs (remainders 1 and 2 mod 3) produce tokens of
length 2 and 3 that `base64_decode` rejects, while remainder-0 inputs,
including the empty input, do round-trip. -/
theorem c5_padding_bug :
    base64_encode [77] = utf8Bytes "TQ" ∧
    base64_decode (base64_encode [77]) = .error "invalid base64 length" ∧
    base64_encode [77, 97] = utf8Bytes "TWE" ∧
    base64_decode (base64_encode [77, 97]) = .error "invalid base64 length" ∧
    base64_decode (base64_encode [77, 97, 110]) = .ok [77, 97, 110] ∧
    base64_decode (base64_encode []) = .ok [] := by
  refine ⟨by decide, by decide, by decide, by decide, by decide, by decide⟩

/-- C6 counterexample: after the Enter key the machine has taken the
Confirmed terminal transition (`EXIT_CODE` 0, unlock requested), yet
processing one further Escape keypress overwrites the recorded result
with 1 — the outcome does not stay unchanged. -/
theorem c6_counterexample :
    update none 1 (.keyPressed .enter) = (0, true) ∧
    processAll none 1 [.keyPressed .enter] = 0 ∧
    processAll none 1 [.keyPressed .enter, .keyPressed .escape] = 1 ∧
    (1 : Int) ≠ 0 := by
  refine ⟨rfl, rfl, rfl, by decide⟩

/-- C6 as amended: after a terminal transition, further events other than
Enter, Escape, or a bound-reaching Tick leave the recorded result unchanged
and request no unlock; but `App::update` has no terminal-state guard, so a
further processed Enter, Escape or bound-reaching Tick overwrites the
recorded result unconditionally — idempotence relies on the unlock request
stopping event delivery. -/
theorem c6_terminal_overwrite :
    (∀ (t : Option Nat) (c : Int), update t c (.keyPressed .other) = (c, false)) ∧
    (∀ (t : Option Nat) (c : Int), update t c .otherEvent = (c, false)) ∧
    (∀ (t : Option Nat) (c : Int), update t c .unLock = (c, false)) ∧
    (∀ (c : Int) (e : Nat), update none c (.tick e) = (c, false)) ∧
    (∀ (t : Nat) (c : Int) (e : Nat), update (some t) c (.tick e) =
      if t ≤ e then (2, true) else (c, false)) ∧
    (∀ (t : Option Nat) (c : Int), update t c (.keyPressed .enter) = (0, true)) ∧
    (∀ (t : Option Nat) (c : Int), update t c (.keyPressed .escape) = (1, true)) := by
  exact ⟨fun _ _ => rfl, fun _ _ => rfl, fun _ _ => rfl, fun _ _ => rfl,
    fun _ _ _ => rfl, fun _ _ => rfl, fun _ _ => rfl⟩

/-- C7: with `timeout_secs = Some 10` a Tick transitions to `TimedOut`
(`EXIT_CODE` 2, unlock) exactly when the elapsed seconds have reached 10;
nine one-second ticks leave the machine untouched and the tenth fires;
a Tick below a configured bound, or with no bound, causes no transition. -/
theorem c7_timeout_firing :
    (∀ (e : Nat) (c : Int), update (some 10) c (.tick e) =
      if 10 ≤ e then (2, true) else (c, false)) ∧
    runLoop (some 10) 1 ((List.range 9).map (fun i => .tick (i + 1))) = (1, false) ∧
    runLoop (some 10) 1 ((List.range 10).map (fun i => .tick (i + 1))) = (2, true) ∧
    show_dialog_inline_result 2 = .Timeout ∧
    (∀ (t e : Nat) (c : Int), update (some t) c (.tick e) =
      if t ≤ e then (2, true) else (c, false)) ∧
    (∀ (e : Nat) (c : Int), update none c (.tick e) = (c, false)) := by
  refine ⟨fun _ _ => rfl, by decide, by decide, rfl, fun _ _ _ => rfl, fun _ _ => rfl⟩

/-- C2: fail-closed — a child killed by a signal (no exit code) maps to
`Error`, a failure to spawn maps to `Error`, an event loop that exits
without any terminal transition leaves `EXIT_CODE` at its initial 1 so the
caller sees `Denied`, and an iced runtime failure exits 3 so the caller
sees `Error`; none of these outcomes is `Confirmed`. -/
theorem c2_fail_closed :
    show_dialog_result (.ok none) = .Error ∧
    (∀ u : Unit, show_dialog_result (.error u) = .Error) ∧
    (∀ (t : Option Nat) (msgs : List Msg),
      (runLoop t 1 msgs).2 = false → ui_run t msgs false = 1) ∧
    (∀ (t : Option Nat) (msgs : List Msg),
      (runLoop t 1 msgs).2 = false →
        show_dialog_result (.ok (some (ui_run t msgs false))) = .Denied) ∧
    (∀ (t : Option Nat) (msgs : List Msg),
      show_dialog_result (.ok (some (ui_run t msgs true))) = .Error) ∧
    DialogResult.Denied ≠ .Confirmed ∧
    DialogResult.Error ≠ .Confirmed := by
  refine ⟨rfl, fun _ => rfl, ?_, ?_, fun _ _ => rfl, by decide, by decide⟩
  · intro t msgs h
    exact runLoop_snd_false t 1 msgs h
  · intro t msgs h
    show show_dialog_result (.ok (some ((runLoop t 1 msgs).1))) = .Denied
    rw [runLoop_snd_false t 1 msgs h]
    rfl

/-- C2 witness: a loop that saw only an irrelevant key event took no
terminal transition and the caller observes `Denied`. -/
theorem c2_fail_closed_witness :
    show_dialog_result (.ok (some (ui_run none [.keyPressed .other] false))) = .Denied :=
  c2_fail_closed.2.2.2.1 none [.keyPressed .other] rfl

/-- C8: a token whose length is not a multiple of 4 (all bytes in the
alphabet) is rejected with the transport error "invalid base64 length"; a
token of valid length containing a byte outside the alphabet is rejected
with the transport error "invalid base64 character"; tokens in either
fault class never parse; a transport-decoded payload `from_bytes` rejects
turns into a distinct payload error; the three errors are distinct, and a
concretely invalid payload is rejected. -/
theorem c8_decode_rejection :
    (∀ s : List Nat, s.length % 4 ≠ 0 → (∀ c ∈ s, isBase64Byte c = true) →
      parse_token s = .error (.transport "invalid base64 length")) ∧
    (∀ (s : List Nat) (x : Nat), s.length % 4 = 0 → x ∈ s → isBase64Byte x = false →
      parse_token s = .error (.transport "invalid base64 character")) ∧
    (∀ s : List Nat, s.length % 4 ≠ 0 → ∀ cfg, parse_token s ≠ .ok cfg) ∧
    (∀ (s : List Nat) (x : Nat), x ∈ s → isBase64Byte x = false →
      ∀ cfg, parse_token s ≠ .ok cfg) ∧
    (∀ (s bytes : List Nat) (m : String), base64_decode s = .ok bytes →
      DialogConfig.from_bytes bytes = .error m → parse_token s = .error (.payload m)) ∧
    (∀ m m' : String, ConfigError.transport m ≠ ConfigError.payload m') ∧
    "invalid base64 length" ≠ "invalid base64 character" ∧
    parse_token (utf8Bytes "wAAA") = .error (.payload "unexpected msgpack byte") := by
  refine ⟨?_, ?_, ?_, ?_, ?_, fun _ _ h => ConfigError.noConfusion h, by decide, by decide⟩
  · intro s h hv
    simp [parse_token, base64_decode_len_err s h hv]
  · intro s x h hx hbad
    simp [parse_token, base64_decode_char_err s h x hx hbad]
  · intro s h cfg hok
    rcases hb : base64_decode s with m | bs
    · simp [parse_token, hb] at hok
    · exact base64_decode_len_not_ok s h bs hb
  · intro s x hx hbad cfg hok
    by_cases hmod : s.length % 4 = 0
    · simp [parse_token, base64_decode_char_err s hmod x hx hbad] at hok
    · rcases hb : base64_decode s with m | bs
      · simp [parse_token, hb] at hok
      · exact base64_decode_len_not_ok s hmod bs hb
  · intro s bytes m h1 h2
    simp [parse_token, h1, h2]

/-- C8 witness: a length-1 token is rejected with the length error and a
token containing `@` is rejected with the character error. -/
theorem c8_decode_rejection_witness :
    parse_token (utf8Bytes "A") = .error (.transport "invalid base64 length") ∧
    parse_token (utf8Bytes "@AAA") = .error (.transport "invalid base64 character") :=
  ⟨c8_decode_rejection.1 (utf8Bytes "A") (by decide) (by decide),
   c8_decode_rejection.2.1 (utf8Bytes "@AAA") 64 (by decide) (by decide) (by decide)⟩

/-- C9 counterexample: the argument list `[""]` after the program name is
non-empty, yet `main` exits with the usage error instead of running with
descriptor `PrivilegeEscalation { command: "" }` — the code tests the
joined command string for emptiness, not the argument list. -/
theorem c9_counterexample :
    dialog_main ["session-dialog", ""] = .exitUsage ∧
    dialog_main ["session-dialog", ""] ≠
      .runWith ⟨.privilegeEscalation (String.intercalate " " [""]), none⟩ := by
  refine ⟨by decide, by decide⟩

/-- C9 as amended: when `--config` is absent, the arguments after the
program name are joined with single spaces into `s`; if `s` is non-empty
the dialog runs with `PrivilegeEscalation { command: s }` and no timeout
(`["run", "as", "root"]` yields "run as root"), and if `s` is empty — the
empty argument list, or a single empty argument — the program exits 3
after a usage diagnostic. -/
theorem c9_legacy_mode :
    (∀ (prog : String) (rest : List String), "--config" ∉ prog :: rest →
      (String.intercalate " " rest ≠ "" →
        dialog_main (prog :: rest) =
          .runWith ⟨.privilegeEscalation (String.intercalate " " rest), none⟩) ∧
      (String.intercalate " " rest = "" → dialog_main (prog :: rest) = .exitUsage)) ∧
    dialog_main ["session-dialog", "run", "as", "root"] =
      .runWith ⟨.privilegeEscalation "run as root", none⟩ ∧
    dialog_main ["session-dialog"] = .exitUsage := by
  refine ⟨?_, by decide, by decide⟩
  intro prog rest hnc
  have hfind : (prog :: rest).findIdx? (fun a => a = "--config") = none := by
    rw [List.findIdx?_eq_none_iff]
    intro x hx
    simp only [decide_eq_false_iff_not]
    intro hEq
    exact hnc (hEq ▸ hx)
  constructor
  · intro hne
    simp [dialog_main, hfind, hne]
  · intro he
    simp [dialog_main, hfind, he]

/-- C9 witness: a single non-empty legacy argument runs the dialog with
that argument as the command. -/
theorem c9_legacy_mode_witness :
    dialog_main ["session-dialog", "reboot"] =
      .runWith ⟨.privilegeEscalation (String.intercalate " " ["reboot"]), none⟩ :=
  (c9_legacy_mode.1 "session-dialog" ["reboot"] (by decide)).1 (by decide)

/-- C10: `decode_char` maps the padding byte to the sextet 0 regardless of
its position, and a token with `=` as the first character of a chunk
decodes successfully instead of being rejected. -/
theorem c10_pad_anywhere :
    decode_char 61 = .ok 0 ∧
    base64_decode (utf8Bytes "=AAA") = .ok [0, 0, 0] ∧
    base64_decode (utf8Bytes "A=AA") = .ok [0, 0, 0] := by
  refine ⟨rfl, by decide, by decide⟩

end SessionDialog
